import Mathlib

/-!
Verification of the Region Annotation Rendering Engine of the
skintel-backend-core repository (src/skintel-facial-landmarks/main.py and
v2.py) against its natural-language specification.

The Python code is shallowly embedded: pure string/list logic is translated
directly; pixel coordinates are integer pairs (the code converts mediapipe
landmark fractions to ints before any geometry); the numerical scipy spline
fitting (splprep/splev) and cv2.convexHull are external numerical libraries
and are abstracted as oracle functions carried in a `GeomOracles` record,
with the sample counts of splev (40 / 100 / 200 points via np.linspace)
kept explicit.  `int(h * 0.025)` and `int(h * 0.05)` are embedded as
`h / 40` and `h / 20` (exact for the nonnegative integer heights involved).
-/

/-- A pixel-space point, as the code's `int(lm.x * w), int(lm.y * h)`. -/
abbrev IPoint := Int × Int

/-- A BGR color triple as used with cv2. -/
abbrev Color := Nat × Nat × Nat

/-- Lower-case an ASCII character, as Python str.lower does on the
ASCII region labels and issue types used here. -/
def lowerChar (c : Char) : Char :=
  if 65 ≤ c.toNat && c.toNat ≤ 90 then Char.ofNat (c.toNat + 32) else c

/-- Upper-case an ASCII character. -/
def upperChar (c : Char) : Char :=
  if 97 ≤ c.toNat && c.toNat ≤ 122 then Char.ofNat (c.toNat - 32) else c

/-- Python str.lower on the strings this service handles. -/
def lowerStr (s : String) : String := String.mk (s.data.map lowerChar)

/-- Does the needle occur at the head of the haystack? -/
def matchesAt : List Char → List Char → Bool
  | [], _ => true
  | _ :: _, [] => false
  | n :: ns, h :: hs => n == h && matchesAt ns hs

/-- Substring occurrence on character lists. -/
def hasSubAux (needle : List Char) : List Char → Bool
  | [] => matchesAt needle []
  | c :: rest => matchesAt needle (c :: rest) || hasSubAux needle rest

/-- Python's `needle in hay` substring test. -/
def strContains (hay needle : String) : Bool := hasSubAux needle.data hay.data

/-- Python str.replace applied character-wise for the single-character
replacement `.replace(0x5f, 0x20)` used for legend labels. -/
def replUnderscore (s : String) : String :=
  String.mk (s.data.map (fun c => if c == '_' then ' ' else c))

/-- Is this an ASCII letter? -/
def isAsciiAlpha (c : Char) : Bool :=
  (65 ≤ c.toNat && c.toNat ≤ 90) || (97 ≤ c.toNat && c.toNat ≤ 122)

/-- Helper for Python str.title: upper-case a letter that follows a
non-letter, lower-case a letter that follows a letter. -/
def titleAux : Bool → List Char → List Char
  | _, [] => []
  | prevAlpha, c :: cs =>
    (if isAsciiAlpha c then (if prevAlpha then lowerChar c else upperChar c) else c)
      :: titleAux (isAsciiAlpha c) cs

/-- Python str.title on ASCII strings. -/
def titleStr (s : String) : String := String.mk (titleAux false s.data)

namespace LANDMARK_INDICES

/-- MediaPipe face-mesh indices, table LANDMARK_INDICES of main.py. -/
def lips : List Nat :=
  [61, 146, 91, 181, 84, 17, 314, 405, 321, 375, 291, 409, 270, 269, 267, 0, 37, 39, 40, 185]

def left_eye : List Nat :=
  [263, 249, 390, 373, 374, 380, 381, 382, 362, 398, 384, 385, 386, 387, 388, 466,
   359, 255, 339, 254, 253, 252, 256, 341]

def right_eye : List Nat :=
  [33, 7, 163, 144, 145, 153, 154, 155, 133, 173, 157, 158, 159, 160, 161, 246,
   130, 25, 110, 24, 23, 22, 26, 112]

def left_eyebrow : List Nat := [276, 283, 282, 295, 285, 300, 293, 334, 296, 336]

def right_eyebrow : List Nat := [46, 53, 52, 65, 55, 70, 63, 105, 66, 107]

def nose : List Nat := [1, 2, 98, 327, 195, 5, 4, 275, 440, 220, 45, 274, 237, 44, 19]

def face_oval : List Nat :=
  [10, 338, 297, 332, 284, 251, 389, 356, 454, 323, 361, 288, 397, 365, 379, 378,
   400, 377, 152, 148, 176, 149, 150, 136, 172, 58, 132, 93, 234, 127, 162, 21,
   54, 103, 67, 109]

def forehead : List Nat := [10, 338, 297, 332, 284, 251, 389, 356, 454, 323, 67, 109, 10]

def left_under_eye : List Nat :=
  [111, 117, 118, 119, 120, 121, 128, 245, 193, 122, 196, 3, 51, 45]

def right_under_eye : List Nat :=
  [340, 346, 347, 348, 349, 350, 357, 465, 417, 351, 419, 248, 281, 275]

def left_tear_trough : List Nat := [111, 117, 118, 119, 120, 121, 128, 245]

def right_tear_trough : List Nat := [340, 346, 347, 348, 349, 350, 357, 465]

def left_cheek : List Nat := [266, 426, 436, 416, 376, 352, 280, 330]

def right_cheek : List Nat := [36, 206, 216, 192, 147, 123, 50, 101]

def t_zone : List Nat := [10, 151, 9, 8, 168, 6, 197, 195, 5, 4, 1, 19, 94, 2]

end LANDMARK_INDICES

/-- get_region_landmarks of main.py (lines 46-97): keyword precedence chain
on the lower-cased region name.  The Python reassigns the lowered name once;
here `lowerStr region_name` is written at each use, which is the same value. -/
def get_region_landmarks (region_name : String) (is_dark_circle : Bool) : List Nat :=
  if is_dark_circle && strContains (lowerStr region_name) "eye" then
    if strContains (lowerStr region_name) "left" then LANDMARK_INDICES.left_under_eye
    else if strContains (lowerStr region_name) "right" then LANDMARK_INDICES.right_under_eye
    else LANDMARK_INDICES.left_under_eye ++ LANDMARK_INDICES.right_under_eye
  else if strContains (lowerStr region_name) "under" && strContains (lowerStr region_name) "eye" then
    if strContains (lowerStr region_name) "left" then LANDMARK_INDICES.left_under_eye
    else if strContains (lowerStr region_name) "right" then LANDMARK_INDICES.right_under_eye
    else LANDMARK_INDICES.left_under_eye ++ LANDMARK_INDICES.right_under_eye
  else if strContains (lowerStr region_name) "lip" || strContains (lowerStr region_name) "mouth" then
    LANDMARK_INDICES.lips
  else if strContains (lowerStr region_name) "left_eye" then
    LANDMARK_INDICES.left_eye
  else if strContains (lowerStr region_name) "right_eye" then
    LANDMARK_INDICES.right_eye
  else if strContains (lowerStr region_name) "eye" then
    LANDMARK_INDICES.left_eye ++ LANDMARK_INDICES.right_eye
  else if strContains (lowerStr region_name) "eyebrow" then
    LANDMARK_INDICES.left_eyebrow ++ LANDMARK_INDICES.right_eyebrow
  else if strContains (lowerStr region_name) "nose" then
    LANDMARK_INDICES.nose
  else if strContains (lowerStr region_name) "forehead" then
    LANDMARK_INDICES.forehead
  else if strContains (lowerStr region_name) "t_zone" || strContains (lowerStr region_name) "t-zone" then
    LANDMARK_INDICES.t_zone
  else if strContains (lowerStr region_name) "cheek" then
    if strContains (lowerStr region_name) "left" then LANDMARK_INDICES.left_cheek
    else if strContains (lowerStr region_name) "right" then LANDMARK_INDICES.right_cheek
    else LANDMARK_INDICES.left_cheek ++ LANDMARK_INDICES.right_cheek
  else
    LANDMARK_INDICES.face_oval

/-- The literal dark-circle / under-eye issue-type list of
annotate_image_with_issues (main.py lines 283-287). -/
def darkCircleTypes : List String :=
  ["dark_circles", "dark circles", "eye_bags", "puffy_eyes", "under_eye_circles",
   "under-eye circles", "dark_circle", "eye bags", "puffy eyes", "under eye"]

/-- `issue.type.lower() in [...]` of main.py line 283. -/
def isDarkCircleType (ty : String) : Bool := darkCircleTypes.contains (lowerStr ty)

/-- The uneven-skin-tone issue-type list of main.py line 299. -/
def unevenToneTypes : List String :=
  ["uneven_skin_tone", "uneven skin tone", "hyperpigmentation",
   "post_inflammatory_hyperpigmentation"]

/-- The effective region resolution of the annotation loop
(main.py lines 283-313): dark-circle types force a tear-trough set,
uneven-tone types get special cheek/t-zone handling, everything else goes
through get_region_landmarks with is_dark_circle=False. -/
def resolveIndices (ty region : String) : List Nat :=
  if isDarkCircleType ty then
    if strContains (lowerStr region) "left" then LANDMARK_INDICES.left_tear_trough
    else if strContains (lowerStr region) "right" then LANDMARK_INDICES.right_tear_trough
    else LANDMARK_INDICES.left_tear_trough ++ LANDMARK_INDICES.right_tear_trough
  else if unevenToneTypes.contains (lowerStr ty) then
    if strContains (lowerStr region) "cheek" then
      if strContains (lowerStr region) "left" then LANDMARK_INDICES.left_cheek
      else if strContains (lowerStr region) "right" then LANDMARK_INDICES.right_cheek
      else get_region_landmarks region false
    else if strContains (lowerStr region) "t" && strContains (lowerStr region) "zone" then
      LANDMARK_INDICES.t_zone
    else get_region_landmarks region false
  else get_region_landmarks region false

/-- Claim C1: for every region label containing both "left" and "eye" and an
issue type in the dark-circle set, the region resolution of the annotation
loop returns the left tear-trough index set, never the generic left-eye
contour set. -/
theorem c1_dark_circle_left_eye_resolves_tear_trough (ty region : String)
    (hty : isDarkCircleType ty = true)
    (hleft : strContains (lowerStr region) "left" = true)
    (heye : strContains (lowerStr region) "eye" = true) :
    resolveIndices ty region = LANDMARK_INDICES.left_tear_trough
    ∧ (LANDMARK_INDICES.left_tear_trough == LANDMARK_INDICES.left_eye) = false := by
  refine ⟨?_, by decide⟩
  simp [resolveIndices, hty, hleft]

/-- Claim C1 witness: the concrete issue type "dark_circles" with region
"left_eye" resolves to the left tear-trough index set. -/
theorem c1_witness :
    isDarkCircleType "dark_circles" = true
    ∧ strContains (lowerStr "left_eye") "left" = true
    ∧ strContains (lowerStr "left_eye") "eye" = true
    ∧ (resolveIndices "dark_circles" "left_eye" = LANDMARK_INDICES.left_tear_trough
       ∧ (LANDMARK_INDICES.left_tear_trough == LANDMARK_INDICES.left_eye) = false) :=
  ⟨by decide, by decide, by decide,
   c1_dark_circle_left_eye_resolves_tear_trough "dark_circles" "left_eye"
     (by decide) (by decide) (by decide)⟩

/-- The SkinIssue payload (main.py class SkinIssue), keeping the fields the
rendering engine reads and mutates; `landmarks` embeds the
dlib_68_facial_landmarks point list. -/
structure SkinIssue where
  type : String
  region : String
  severity : String
  landmarks : List IPoint
deriving Repr, DecidableEq

/-- The severity_colors table of main.py / v2.py (BGR). -/
def severity_colors : List (String × Color) :=
  [("mild", (0, 255, 255)), ("moderate", (0, 165, 255)),
   ("severe", (0, 0, 255)), ("critical", (128, 0, 128))]

/-- `severity_colors.get(issue.severity.lower(), (255, 255, 255))`. -/
def severityColor (s : String) : Color :=
  (severity_colors.lookup (lowerStr s)).getD (255, 255, 255)

/-- One legend row, as built in both main.py and v2.py. -/
structure LegendEntry where
  number : Nat
  label : String
  severity : String
  color : Color
deriving Repr, DecidableEq

/-- Python enumerate(list, start=n). -/
def enumFrom (n : Nat) : List α → List (Nat × α)
  | [] => []
  | a :: as => (n, a) :: enumFrom (n + 1) as

/-- `issue.type.replace(0x5f, 0x20).title()`, the legend label text. -/
def issueLabel (ty : String) : String := titleStr (replUnderscore ty)

/-- The legend row built from one enumerated issue. -/
def mkLegendEntry (idx : Nat) (iss : SkinIssue) : LegendEntry :=
  { number := idx, label := issueLabel iss.type, severity := iss.severity,
    color := severityColor iss.severity }

/-- Legend construction of main.py (lines 402-418): one entry per issue,
in enumeration order starting at 1, irrespective of face detection or
landmark count. -/
def legendItemsMain (issues : List SkinIssue) : List LegendEntry :=
  (enumFrom 1 issues).map (fun p => mkLegendEntry p.1 p.2)

/-- The numerical geometry collaborators, abstracted: scipy splprep/splev
open (per=0) and closed (per=1) fits, each returning on success a curve we
sample at np.linspace points, and cv2.convexHull. -/
structure GeomOracles where
  fitOpen : List IPoint → Option (Nat → IPoint)
  fitClosed : List IPoint → Option (Nat → IPoint)
  hull : List IPoint → List IPoint

/-- splev at np.linspace(lo, hi, n): exactly n sample points. -/
def sampleCurve (s : Nat → IPoint) (n : Nat) : List IPoint := (List.range n).map s

/-- get_smooth_curve of main.py (lines 238-257): under 3 points the input is
returned as is; otherwise the loop is closed by appending the first point, a
periodic spline is fitted and resampled to num_points points, and on fitting
failure the closing duplicate is dropped again, returning the input. -/
def get_smooth_curve (g : GeomOracles) (num_points : Nat) (points : List IPoint) : List IPoint :=
  if points.length < 3 then points
  else
    match g.fitClosed (points ++ points.take 1) with
    | some s => sampleCurve s num_points
    | none => (points ++ points.take 1).dropLast

/-- Translate every point of a list vertically. -/
def shiftY (d : Int) (pts : List IPoint) : List IPoint := pts.map (fun p => (p.1, p.2 + d))

/-- Ordering on pixel points by x coordinate, the key of
`points[np.argsort(points[:, 0])]`. -/
def leX (a b : IPoint) : Prop := a.1 ≤ b.1

instance : DecidableRel leX := fun a b => inferInstanceAs (Decidable (a.1 ≤ b.1))

instance : IsTotal IPoint leX := ⟨fun a b => Int.le_total a.1 b.1⟩

instance : IsTrans IPoint leX := ⟨fun _ _ _ hab hbc => le_trans hab hbc⟩

/-- Sort points left-to-right by x. -/
def sortByX (pts : List IPoint) : List IPoint := List.insertionSort leX pts

/-- The drawable primitives the code hands to cv2 (BGR colors). -/
inductive DrawOp
  | polyClosed (pts : List IPoint) (color : Color) (thickness : Nat)
  | polyOpen (pts : List IPoint) (color : Color) (thickness : Nat)
  | polyFill (pts : List IPoint) (color : Color)
  | circleOp (center : IPoint) (radius : Nat) (color : Color) (filled : Bool)
  | textOp (s : String) (pos : IPoint) (color : Color)
  | blendOp
deriving Repr, DecidableEq

/-- The RenderPrimitive classification of the specification, paragraph 3. -/
inductive Primitive
  | closedContour (pts : List IPoint)
  | openArc (pts : List IPoint)
  | scatterCloud (pts : List IPoint)
deriving Repr, DecidableEq

/-- Classify a drawn shape op as a specification RenderPrimitive. -/
def primOfOp : DrawOp → Option Primitive
  | DrawOp.polyClosed pts _ _ => some (Primitive.closedContour pts)
  | DrawOp.polyOpen pts _ _ => some (Primitive.openArc pts)
  | _ => none

/-- Is the primitive a scatter cloud? -/
def primKindIsScatter : Primitive → Bool
  | Primitive.scatterCloud _ => true
  | _ => false

/-- The color carried by a draw op. -/
def opColor : DrawOp → Option Color
  | DrawOp.polyClosed _ c _ => some c
  | DrawOp.polyOpen _ c _ => some c
  | DrawOp.polyFill _ c => some c
  | DrawOp.circleOp _ _ c _ => some c
  | DrawOp.textOp _ _ c => some c
  | DrawOp.blendOp => none

/-- The inner crescent closing of main.py lines 360-371: concatenate the
40-sample top curve with the reversed 40-sample bottom curve, re-smooth the
closed loop at 200 samples, and on failure of that closed fit keep the raw
concatenation. -/
def crescentLoop (g : GeomOracles) (sTop sBot : Nat → IPoint) (c : Color) : DrawOp :=
  match g.fitClosed (sampleCurve sTop 40 ++ (sampleCurve sBot 40).reverse) with
  | some sm => DrawOp.polyClosed (sampleCurve sm 200) c 2
  | none => DrawOp.polyClosed (sampleCurve sTop 40 ++ (sampleCurve sBot 40).reverse) c 2

/-- The dark-circle / under-eye drawing of main.py lines 329-387: sort by x;
with at least 3 points shift up by int(h * 0.025) = h / 40, fit the top
curve, offset down by int(h * 0.05) = h / 20 and fit the bottom curve, close
and re-smooth via crescentLoop; if either open fit fails fall back to the
raw shifted and offset polygon; with fewer than 3 points draw the sorted
points as an open polyline. -/
def darkCircleOp (g : GeomOracles) (h : Int) (c : Color) (points : List IPoint) : DrawOp :=
  if 3 ≤ (sortByX points).length then
    match g.fitOpen (shiftY (-(h / 40)) (sortByX points)),
          g.fitOpen (shiftY (h / 20) (shiftY (-(h / 40)) (sortByX points))) with
    | some sTop, some sBot => crescentLoop g sTop sBot c
    | _, _ =>
        DrawOp.polyClosed
          (shiftY (-(h / 40)) (sortByX points)
            ++ (shiftY (h / 20) (shiftY (-(h / 40)) (sortByX points))).reverse) c 2
  else
    DrawOp.polyOpen (sortByX points) c 2

/-- Modelled from the spec: the crescent construction as paragraph 4.2 item 1
words it, for at least 3 anchor points.  Sort the anchor points
left-to-right by x; shift the whole set upward by the fixed fraction
h / 40 (2.5 percent) of image height; fit a smoothing curve through the
shifted points; duplicate and offset downward by h / 20 (5 percent) and fit
the lower curve; concatenate upper-curve-forward with lower-curve-reversed
to close the loop and re-smooth the closed loop; on curve-fitting failure
fall back to the raw shifted and offset polygon without smoothing. -/
def spec_crescent (g : GeomOracles) (h : Int) (c : Color) (points : List IPoint) : DrawOp :=
  match g.fitOpen (shiftY (-(h / 40)) (sortByX points)),
        g.fitOpen (shiftY (h / 20) (shiftY (-(h / 40)) (sortByX points))) with
  | some sTop, some sBot =>
      match g.fitClosed (sampleCurve sTop 40 ++ (sampleCurve sBot 40).reverse) with
      | some sm => DrawOp.polyClosed (sampleCurve sm 200) c 2
      | none => DrawOp.polyClosed (sampleCurve sTop 40 ++ (sampleCurve sBot 40).reverse) c 2
  | _, _ =>
      DrawOp.polyClosed
        (shiftY (-(h / 40)) (sortByX points)
          ++ (shiftY (h / 20) (shiftY (-(h / 40)) (sortByX points))).reverse) c 2

/-- One iteration of the annotation loop of main.py lines 279-400, given the
detected face as a map from mesh index to pixel point: the shape drawn (none
when no point resolved) and the issue with its landmark list overwritten by
the resolved pixel points. -/
def processIssue (g : GeomOracles) (h : Int) (face : Nat → IPoint) (issue : SkinIssue) :
    Option DrawOp × SkinIssue :=
  (if ((resolveIndices issue.type issue.region).map face).isEmpty then none
   else if isDarkCircleType issue.type || strContains (lowerStr issue.region) "under" then
     some (darkCircleOp g h (severityColor issue.severity)
       ((resolveIndices issue.type issue.region).map face))
   else if strContains (lowerStr issue.region) "eye"
       || strContains (lowerStr issue.region) "lip" then
     some (DrawOp.polyClosed
       (get_smooth_curve g 100 ((resolveIndices issue.type issue.region).map face))
       (severityColor issue.severity) 1)
   else
     some (DrawOp.polyClosed
       (get_smooth_curve g 100 (g.hull ((resolveIndices issue.type issue.region).map face)))
       (severityColor issue.severity) 1),
   { issue with landmarks := (resolveIndices issue.type issue.region).map face })

/-- What annotate_image_with_issues of main.py produces, beyond the encoded
raster: the shape ops drawn, the legend rows, and the (possibly mutated)
issue list. -/
structure AnnotateOutput where
  shapeOps : List DrawOp
  legend : List LegendEntry
  issuesOut : List SkinIssue
deriving Repr

/-- annotate_image_with_issues of main.py (lines 259-506): with no face
detected the shape loop is skipped entirely (the code logs and passes) but
the legend is still built from the untouched issues; with a face every issue
is processed, mutated, and contributes one legend row. -/
def annotate_image_with_issues (g : GeomOracles) (h : Int)
    (faceDet : Option (Nat → IPoint)) (issues : List SkinIssue) : AnnotateOutput :=
  match faceDet with
  | none => { shapeOps := [], legend := legendItemsMain issues, issuesOut := issues }
  | some face =>
      { shapeOps := (issues.map (processIssue g h face)).filterMap Prod.fst,
        legend := legendItemsMain ((issues.map (processIssue g h face)).map Prod.snd),
        issuesOut := (issues.map (processIssue g h face)).map Prod.snd }

/-- `int(np.mean(points))` per coordinate, the centroid used by v2.py for the
number marker (integer truncation of the exact mean; the float detour of
np.mean is exact for the coordinate ranges involved). -/
def v2Centroid (pts : List IPoint) : IPoint :=
  (Int.tdiv ((pts.map Prod.fst).foldl (fun a b => a + b) 0) (pts.length : Int),
   Int.tdiv ((pts.map Prod.snd).foldl (fun a b => a + b) 0) (pts.length : Int))

/-- One iteration of the issue loop of v2.py annotate_image_with_issues
(lines 233-293): an issue with zero landmark points is skipped entirely
(`continue`) and contributes no legend entry; otherwise the region is filled
and blended, outlined, a numbered marker is drawn at the centroid, and one
legend entry is recorded.  Text placement offsets from cv2.getTextSize are
renderer-internal and elided. -/
def v2IssueStep (idx : Nat) (iss : SkinIssue) : List DrawOp × Option LegendEntry :=
  if iss.landmarks.isEmpty then ([], none)
  else
    ([DrawOp.polyFill iss.landmarks (severityColor iss.severity),
      DrawOp.blendOp,
      DrawOp.polyClosed iss.landmarks (severityColor iss.severity) 3,
      DrawOp.circleOp (v2Centroid iss.landmarks) 15 (severityColor iss.severity) true,
      DrawOp.circleOp (v2Centroid iss.landmarks) 15 (255, 255, 255) false,
      DrawOp.textOp (toString idx) (v2Centroid iss.landmarks) (255, 255, 255)],
     some (mkLegendEntry idx iss))

/-- annotate_image_with_issues of v2.py (lines 204-394), reduced to the shape
ops drawn and the legend rows collected. -/
def annotate_v2 (issues : List SkinIssue) : List DrawOp × List LegendEntry :=
  (List.flatten (((enumFrom 1 issues).map (fun p => v2IssueStep p.1 p.2)).map Prod.fst),
   ((enumFrom 1 issues).map (fun p => v2IssueStep p.1 p.2)).filterMap Prod.snd)

/-- The image-processing stages of the annotate-from-url endpoint, in the
order main.py lines 612-660 performs them. -/
inductive PipeStep
  | download
  | decode
  | emptyCheck
  | resize
  | render
deriving Repr, DecidableEq

/-- The request-fatal error conditions of the endpoint that this model
reaches (URL validation and download failures happen upstream of the stages
modelled here and are assumed to have passed). -/
inductive AppError
  | emptyIssueList
deriving Repr, DecidableEq

/-- The IssueAnnotationResponse fields the claims inspect, together with the
shape ops and legend of the produced image. -/
structure UrlResponse where
  status : String
  totalIssues : Nat
  issuesOut : List SkinIssue
  shapeOps : List DrawOp
  legend : List LegendEntry
deriving Repr

/-- Issue landmark scaling applied when the image is wider than 1024 px
(main.py lines 650-658); the per-point scaling is the oracle scalePt. -/
def resizeIssue (scalePt : IPoint → IPoint) (iss : SkinIssue) : SkinIssue :=
  { iss with landmarks := iss.landmarks.map scalePt }

/-- annotate_skin_issues_from_url of main.py (lines 601-675), for a request
that passed URL validation, download and content-type checks: the image is
decoded first, then the empty-issue precondition is checked, then the image
and landmarks are resized when wider than 1024, then annotation renders, and
the response always carries status "success".  Returns the stage trace and
the outcome. -/
def annotate_skin_issues_from_url (g : GeomOracles) (h : Int)
    (faceDet : Option (Nat → IPoint)) (width : Nat) (scalePt : IPoint → IPoint)
    (issues : List SkinIssue) : List PipeStep × Except AppError UrlResponse :=
  if issues.isEmpty then
    ([PipeStep.download, PipeStep.decode, PipeStep.emptyCheck],
     Except.error AppError.emptyIssueList)
  else if 1024 < width then
    ([PipeStep.download, PipeStep.decode, PipeStep.emptyCheck, PipeStep.resize,
      PipeStep.render],
     Except.ok
       { status := "success",
         totalIssues := (issues.map (resizeIssue scalePt)).length,
         issuesOut := (annotate_image_with_issues g h faceDet
           (issues.map (resizeIssue scalePt))).issuesOut,
         shapeOps := (annotate_image_with_issues g h faceDet
           (issues.map (resizeIssue scalePt))).shapeOps,
         legend := (annotate_image_with_issues g h faceDet
           (issues.map (resizeIssue scalePt))).legend })
  else
    ([PipeStep.download, PipeStep.decode, PipeStep.emptyCheck, PipeStep.render],
     Except.ok
       { status := "success",
         totalIssues := issues.length,
         issuesOut := (annotate_image_with_issues g h faceDet issues).issuesOut,
         shapeOps := (annotate_image_with_issues g h faceDet issues).shapeOps,
         legend := (annotate_image_with_issues g h faceDet issues).legend })

/-- An image as an abstract pixel grid. -/
def Image := List (List Color)

/-- The two pixel buffers alive inside annotate_image_with_issues: the
caller's source array and the working copy `annotated = image_array.copy()`.
Intermediate overlays are copies of the working buffer and fold into
work-to-work transformations. -/
structure Buffers where
  src : Image
  work : Image

/-- Apply one cv2 drawing call; every such call in both annotate functions
targets the working copy (or an overlay derived from it), never the source. -/
def applyToWork (f : Image → Image) (b : Buffers) : Buffers := { b with work := f b.work }

/-- Run an annotate body: copy the source, then apply each drawing call to
the copy. -/
def annotateBuffers (fs : List (Image → Image)) (img : Image) : Buffers :=
  fs.foldl (fun b f => applyToWork f b) { src := img, work := img }

/-- The drawing calls issued by annotate_image_with_issues of main.py, as
work-buffer transformations: one per shape op, then the legend panel
(rendering of single ops and of the legend panel is the rasterizer oracle). -/
def mainRenderFns (g : GeomOracles) (h : Int) (faceDet : Option (Nat → IPoint))
    (issues : List SkinIssue) (renderOp : DrawOp → Image → Image)
    (renderLegend : List LegendEntry → Image → Image) : List (Image → Image) :=
  (annotate_image_with_issues g h faceDet issues).shapeOps.map renderOp
    ++ [renderLegend (annotate_image_with_issues g h faceDet issues).legend]

/-- The drawing calls issued by annotate_image_with_issues of v2.py. -/
def v2RenderFns (issues : List SkinIssue) (renderOp : DrawOp → Image → Image)
    (renderLegend : List LegendEntry → Image → Image) : List (Image → Image) :=
  (annotate_v2 issues).1.map renderOp ++ [renderLegend (annotate_v2 issues).2]

/-- Oracle instance with every numerical fit failing and a trivial hull,
for concrete evaluations. -/
def gNone : GeomOracles :=
  { fitOpen := fun _ => none, fitClosed := fun _ => none, hull := fun l => l }

/-- Oracle instance with every numerical fit succeeding. -/
def gSome : GeomOracles :=
  { fitOpen := fun _ => some (fun k => ((k : Int), (k : Int))),
    fitClosed := fun _ => some (fun k => ((k : Int), (k : Int))),
    hull := fun l => l }

/-- A concrete detected face: mesh index i at pixel (i, i). -/
def faceId : Nat → IPoint := fun i => ((i : Int), (i : Int))

/-- The spec's scatter-cloud scenario input: severe acne on the forehead. -/
def acneIssue : SkinIssue :=
  { type := "acne", region := "forehead", severity := "severe", landmarks := [] }

/-- An issue whose caller-supplied landmark list is empty. -/
def noPointsIssue : SkinIssue :=
  { type := "acne", region := "cheek", severity := "mild", landmarks := [] }

/-- Three concrete unsorted anchor points for the crescent construction. -/
def cresPts : List IPoint := [(2, 5), (0, 7), (1, 6)]

/-- Mapping does not change emptiness. -/
theorem isEmpty_map (f : α → β) (l : List α) : (l.map f).isEmpty = l.isEmpty := by
  cases l <;> rfl

/-- Every branch of the region keyword chain returns a nonempty index list:
resolution always succeeds, falling back to the face oval. -/
theorem get_region_landmarks_ne (r : String) (b : Bool) :
    (get_region_landmarks r b).isEmpty = false := by
  unfold get_region_landmarks
  generalize strContains (lowerStr r) "eye" = c1
  generalize strContains (lowerStr r) "left" = c2
  generalize strContains (lowerStr r) "right" = c3
  generalize strContains (lowerStr r) "under" = c4
  generalize strContains (lowerStr r) "lip" = c5
  generalize strContains (lowerStr r) "mouth" = c6
  generalize strContains (lowerStr r) "left_eye" = c7
  generalize strContains (lowerStr r) "right_eye" = c8
  generalize strContains (lowerStr r) "eyebrow" = c9
  generalize strContains (lowerStr r) "nose" = c10
  generalize strContains (lowerStr r) "forehead" = c11
  generalize strContains (lowerStr r) "t_zone" = c12
  generalize strContains (lowerStr r) "t-zone" = c13
  generalize strContains (lowerStr r) "cheek" = c14
  revert b c1 c2 c3 c4 c5 c6 c7 c8 c9 c10 c11 c12 c13 c14
  decide

/-- The annotation loop's region resolution always yields a nonempty list. -/
theorem resolveIndices_ne (ty region : String) :
    (resolveIndices ty region).isEmpty = false := by
  have hg : (get_region_landmarks region false).isEmpty = false :=
    get_region_landmarks_ne region false
  unfold resolveIndices
  generalize isDarkCircleType ty = d1
  generalize strContains (lowerStr region) "left" = d2
  generalize strContains (lowerStr region) "right" = d3
  generalize unevenToneTypes.contains (lowerStr ty) = d4
  generalize strContains (lowerStr region) "cheek" = d5
  generalize strContains (lowerStr region) "t" = d6
  generalize strContains (lowerStr region) "zone" = d7
  cases d1 <;> cases d2 <;> cases d3 <;> cases d4 <;> cases d5 <;> cases d6 <;> cases d7 <;>
    first
      | exact hg
      | rfl

/-- The issue returned by one loop iteration is the input with its landmark
list overwritten by the resolved pixel points. -/
theorem processIssue_snd (g : GeomOracles) (h : Int) (face : Nat → IPoint)
    (iss : SkinIssue) :
    (processIssue g h face iss).2 =
      { iss with landmarks := (resolveIndices iss.type iss.region).map face } := rfl

/-- enumerate distributes over map. -/
theorem enumFrom_map (f : α → β) (l : List α) (n : Nat) :
    enumFrom n (l.map f) = (enumFrom n l).map (fun p => (p.1, f p.2)) := by
  induction l generalizing n with
  | nil => rfl
  | cons a as ih => simp [enumFrom, ih]

/-- enumerate preserves length. -/
theorem enumFrom_length (l : List α) (n : Nat) :
    (enumFrom n l).length = l.length := by
  induction l generalizing n with
  | nil => rfl
  | cons a as ih => simp [enumFrom, ih]

/-- A legend row reads only the type and severity of an issue, so the
landmark overwrite does not change it. -/
theorem mkLegendEntry_landmarks (idx : Nat) (iss : SkinIssue) (pts : List IPoint) :
    mkLegendEntry idx { iss with landmarks := pts } = mkLegendEntry idx iss := rfl

/-- The legend main.py builds, with or without a detected face, is one row
per input issue in enumeration order. -/
theorem legend_main_annotate (g : GeomOracles) (h : Int)
    (faceDet : Option (Nat → IPoint)) (issues : List SkinIssue) :
    (annotate_image_with_issues g h faceDet issues).legend
      = (enumFrom 1 issues).map (fun p => mkLegendEntry p.1 p.2) := by
  cases faceDet with
  | none => rfl
  | some face =>
      show legendItemsMain ((issues.map (processIssue g h face)).map Prod.snd) = _
      rw [legendItemsMain, List.map_map, enumFrom_map, List.map_map]
      apply List.map_congr_left
      intro p _
      simp only [Function.comp_apply, processIssue_snd, mkLegendEntry_landmarks]

/-- With a detected face, the issue list comes back with every landmark list
overwritten by the resolved pixel coordinates. -/
theorem issuesOut_some (g : GeomOracles) (h : Int) (face : Nat → IPoint)
    (issues : List SkinIssue) :
    (annotate_image_with_issues g h (some face) issues).issuesOut
      = issues.map (fun iss =>
          { iss with landmarks := (resolveIndices iss.type iss.region).map face }) := by
  show (issues.map (processIssue g h face)).map Prod.snd = _
  rw [List.map_map]
  apply List.map_congr_left
  intro iss _
  simp only [Function.comp_apply, processIssue_snd]

/-- Dropping the last element undoes appending one element. -/
theorem dropLast_app_one (l : List α) (a : α) : (l ++ [a]).dropLast = l := by
  induction l with
  | nil => rfl
  | cons x xs ih =>
      cases xs with
      | nil => rfl
      | cons y ys => simpa [List.dropLast] using ih

/-- The dark-circle branch only ever draws closed or open polylines. -/
theorem darkCircleOp_no_scatter (g : GeomOracles) (h : Int) (c : Color)
    (pts : List IPoint) :
    ((primOfOp (darkCircleOp g h c pts)).map primKindIsScatter).getD false = false := by
  unfold darkCircleOp crescentLoop
  repeat' split
  all_goals rfl

/-- The dark-circle branch draws with the severity color it is given. -/
theorem darkCircleOp_color (g : GeomOracles) (h : Int) (c : Color)
    (pts : List IPoint) :
    opColor (darkCircleOp g h c pts) = some c := by
  unfold darkCircleOp crescentLoop
  repeat' split
  all_goals rfl

/-- No iteration of the main annotation loop produces a scatter cloud. -/
theorem processIssue_no_scatter (g : GeomOracles) (h : Int) (face : Nat → IPoint)
    (iss : SkinIssue) :
    (((processIssue g h face iss).1.bind primOfOp).map primKindIsScatter).getD false
      = false := by
  unfold processIssue
  repeat' split
  · rfl
  · simpa using darkCircleOp_no_scatter g h (severityColor iss.severity)
      ((resolveIndices iss.type iss.region).map face)
  · rfl
  · rfl

/-- The legend rows v2 collects are exactly the enumerated issues with a
nonempty landmark list, keeping their original numbers. -/
theorem filterMap_v2 (l : List (Nat × SkinIssue)) :
    (l.map (fun p => v2IssueStep p.1 p.2)).filterMap Prod.snd
      = (l.filter (fun p => !p.2.landmarks.isEmpty)).map
          (fun p => mkLegendEntry p.1 p.2) := by
  induction l with
  | nil => rfl
  | cons a as ih =>
      obtain ⟨i, iss⟩ := a
      rw [List.filterMap_map] at ih
      cases hld : iss.landmarks with
      | nil =>
          simp only [v2IssueStep, hld, List.map_cons, List.filterMap_cons, List.filter_cons,
            List.isEmpty_nil, Bool.not_true, if_true, List.filterMap_map]
          exact ih
      | cons p ps =>
          simp only [v2IssueStep, hld, List.map_cons, List.filterMap_cons, List.filter_cons,
            List.isEmpty_cons, Bool.not_false, List.filterMap_map]
          simp only [← hld]
          simpa [v2IssueStep] using ih

/-- Folding work-buffer transformations never changes the source buffer. -/
theorem foldl_work_src (fs : List (Image → Image)) (b : Buffers) :
    (fs.foldl (fun b f => applyToWork f b) b).src = b.src := by
  induction fs generalizing b with
  | nil => rfl
  | cons f fs ih => simpa [applyToWork] using ih (applyToWork f b)

/-- Legend rows are unaffected by the pre-annotation landmark resize. -/
theorem legend_main_resize (s : IPoint → IPoint) (issues : List SkinIssue) :
    legendItemsMain (issues.map (resizeIssue s))
      = (enumFrom 1 issues).map (fun p => mkLegendEntry p.1 p.2) := by
  rw [legendItemsMain, enumFrom_map, List.map_map]
  apply List.map_congr_left
  intro p _
  rfl

/-- Every iteration of the main loop draws with the severity color. -/
theorem processIssue_opColor (g : GeomOracles) (h : Int) (face : Nat → IPoint)
    (iss : SkinIssue) :
    ((processIssue g h face iss).1.bind opColor) = some (severityColor iss.severity) := by
  unfold processIssue
  simp only [isEmpty_map, resolveIndices_ne, Bool.false_eq_true, if_false]
  split
  · simp [darkCircleOp_color]
  · split
    · rfl
    · rfl

/-- Claim C2 counterexample: with the anchor detector reporting no face and
one issue, the url endpoint answers Except.ok with status "success", the
same status as the face-detected run, and the returned image carries a
rendered legend row; the caller cannot distinguish the no-face condition
from success and the image is not the unannotated base image. -/
theorem c2_counterexample :
    ((annotate_skin_issues_from_url gNone 100 none 800 id [acneIssue]).2.map
        UrlResponse.status) = Except.ok "success"
    ∧ ((annotate_skin_issues_from_url gNone 100 (some faceId) 800 id [acneIssue]).2.map
        UrlResponse.status) = Except.ok "success"
    ∧ ((annotate_skin_issues_from_url gNone 100 none 800 id [acneIssue]).2.map
        (fun r => r.legend.length)) = Except.ok 1 :=
  ⟨rfl, rfl, rfl⟩

/-- Claim C2 amended: when the detector reports no face, the pipeline draws
zero shape primitives and the endpoint still returns status "success" with
the legend rendered, one row per issue; the no-face condition is only
logged, not surfaced as a distinct status. -/
theorem c2_no_face_zero_shapes_status_success (g : GeomOracles) (h : Int) (w : Nat)
    (s : IPoint → IPoint) (i0 : SkinIssue) (rest : List SkinIssue) :
    ∃ resp, (annotate_skin_issues_from_url g h none w s (i0 :: rest)).2 = Except.ok resp
      ∧ resp.status = "success"
      ∧ resp.shapeOps = []
      ∧ resp.legend = (enumFrom 1 (i0 :: rest)).map (fun p => mkLegendEntry p.1 p.2) := by
  unfold annotate_skin_issues_from_url
  simp only [List.isEmpty_cons, Bool.false_eq_true, if_false]
  split
  · exact ⟨_, rfl, rfl, rfl, legend_main_resize s (i0 :: rest)⟩
  · exact ⟨_, rfl, rfl, rfl, rfl⟩

/-- Claim C3 counterexample: for the empty issue list the request is indeed
rejected with the empty-issue error, but the decode stage has already
happened when the rejection fires, so the rejection does not precede all
image processing. -/
theorem c3_counterexample :
    (annotate_skin_issues_from_url gNone 100 none 800 id []).1
      = [PipeStep.download, PipeStep.decode, PipeStep.emptyCheck]
    ∧ (annotate_skin_issues_from_url gNone 100 none 800 id []).2
      = Except.error AppError.emptyIssueList
    ∧ (annotate_skin_issues_from_url gNone 100 none 800 id []).1.contains PipeStep.decode
      = true :=
  ⟨rfl, rfl, rfl⟩

/-- Claim C3 amended: an empty issue list is rejected with the empty-issue
precondition error after download and decode but before any resizing or
rendering takes place: the stage trace is exactly download, decode,
empty-check. -/
theorem c3_empty_rejected_before_resize_render (g : GeomOracles) (h : Int)
    (faceDet : Option (Nat → IPoint)) (w : Nat) (s : IPoint → IPoint) :
    (annotate_skin_issues_from_url g h faceDet w s []).1
      = [PipeStep.download, PipeStep.decode, PipeStep.emptyCheck]
    ∧ (annotate_skin_issues_from_url g h faceDet w s []).2
      = Except.error AppError.emptyIssueList :=
  ⟨rfl, rfl⟩

/-- Claim C4 counterexample: v2 annotation of a single issue whose landmark
point list is empty renders zero legend entries for one input issue, while
the main annotation keeps the row. -/
theorem c4_counterexample :
    (annotate_v2 [noPointsIssue]).2.length = 0
    ∧ ([noPointsIssue] : List SkinIssue).length = 1
    ∧ (annotate_image_with_issues gNone 100 none [noPointsIssue]).legend.length = 1 :=
  ⟨rfl, rfl, rfl⟩

/-- Claim C4 amended: in main.py the legend always has exactly one entry per
input issue, in input order with numbering 1..n; in v2.py issues whose
landmark list is empty are skipped, and the remaining entries keep input
order and their original numbering. -/
theorem c4_legend_rows_per_issue (g : GeomOracles) (h : Int)
    (faceDet : Option (Nat → IPoint)) (issues : List SkinIssue) :
    (annotate_image_with_issues g h faceDet issues).legend
      = (enumFrom 1 issues).map (fun p => mkLegendEntry p.1 p.2)
    ∧ (annotate_image_with_issues g h faceDet issues).legend.length = issues.length
    ∧ (annotate_v2 issues).2
      = ((enumFrom 1 issues).filter (fun p => !p.2.landmarks.isEmpty)).map
          (fun p => mkLegendEntry p.1 p.2) := by
  refine ⟨legend_main_annotate g h faceDet issues, ?_, ?_⟩
  · rw [legend_main_annotate, List.length_map, enumFrom_length]
  · show ((enumFrom 1 issues).map (fun p => v2IssueStep p.1 p.2)).filterMap Prod.snd = _
    exact filterMap_v2 (enumFrom 1 issues)

/-- Claim C5 counterexample: for the spec's scenario issue, severe acne on
the forehead, the synthesizer draws the smoothed convex-hull closed contour
of the forehead anchors; the produced primitive is a closed contour, not a
scatter cloud, and no scatter-sampling code path exists. -/
theorem c5_counterexample :
    (processIssue gNone 100 faceId acneIssue).1
      = some (DrawOp.polyClosed (LANDMARK_INDICES.forehead.map faceId) (0, 0, 255) 1)
    ∧ ((processIssue gNone 100 faceId acneIssue).1.bind primOfOp).map primKindIsScatter
      = some false :=
  ⟨rfl, rfl⟩

/-- Claim C5 amended: dot and texture issues whose type is not in the
dark-circle set and whose region mentions none of under, eye, lip take the
convex-hull plus smoothed-closed-contour path, and no input whatsoever makes
the synthesizer produce a scatter-cloud primitive. -/
theorem c5_dot_issues_hull_contour_never_scatter (g : GeomOracles) (h : Int)
    (face : Nat → IPoint) (issue : SkinIssue)
    (h1 : isDarkCircleType issue.type = false)
    (h2 : strContains (lowerStr issue.region) "under" = false)
    (h3 : strContains (lowerStr issue.region) "eye" = false)
    (h4 : strContains (lowerStr issue.region) "lip" = false) :
    (processIssue g h face issue).1
      = some (DrawOp.polyClosed
          (get_smooth_curve g 100
            (g.hull ((resolveIndices issue.type issue.region).map face)))
          (severityColor issue.severity) 1)
    ∧ ∀ (g2 : GeomOracles) (h2i : Int) (f2 : Nat → IPoint) (i2 : SkinIssue),
        (((processIssue g2 h2i f2 i2).1.bind primOfOp).map primKindIsScatter).getD false
          = false := by
  constructor
  · simp [processIssue, isEmpty_map, resolveIndices_ne, h1, h2, h3, h4]
  · intro g2 h2i f2 i2
    exact processIssue_no_scatter g2 h2i f2 i2

/-- Claim C5 witness: the severe forehead acne issue satisfies the branch
hypotheses and gets the hull-contour path. -/
theorem c5_witness :
    isDarkCircleType acneIssue.type = false
    ∧ strContains (lowerStr acneIssue.region) "under" = false
    ∧ strContains (lowerStr acneIssue.region) "eye" = false
    ∧ strContains (lowerStr acneIssue.region) "lip" = false
    ∧ ((processIssue gSome 100 faceId acneIssue).1
        = some (DrawOp.polyClosed
            (get_smooth_curve gSome 100
              (gSome.hull ((resolveIndices acneIssue.type acneIssue.region).map faceId)))
            (severityColor acneIssue.severity) 1)
       ∧ ∀ (g2 : GeomOracles) (h2i : Int) (f2 : Nat → IPoint) (i2 : SkinIssue),
           (((processIssue g2 h2i f2 i2).1.bind primOfOp).map primKindIsScatter).getD false
             = false) :=
  ⟨by decide, by decide, by decide, by decide,
   c5_dot_issues_hull_contour_never_scatter gSome 100 faceId acneIssue
     (by decide) (by decide) (by decide) (by decide)⟩

/-- Claim C6: with a detected face, every issue comes back with its landmark
list overwritten by the resolved pixel coordinates actually used for
rendering, and the endpoint returns that mutated list to the caller. -/
theorem c6_resolved_points_overwritten_and_returned (g : GeomOracles) (h : Int)
    (face : Nat → IPoint) (w : Nat) (s : IPoint → IPoint) (i0 : SkinIssue)
    (rest : List SkinIssue) :
    (annotate_image_with_issues g h (some face) (i0 :: rest)).issuesOut
      = (i0 :: rest).map (fun iss =>
          { iss with landmarks := (resolveIndices iss.type iss.region).map face })
    ∧ ∃ resp, (annotate_skin_issues_from_url g h (some face) w s (i0 :: rest)).2
        = Except.ok resp
      ∧ resp.issuesOut = (i0 :: rest).map (fun iss =>
          { iss with landmarks := (resolveIndices iss.type iss.region).map face }) := by
  refine ⟨issuesOut_some g h face (i0 :: rest), ?_⟩
  unfold annotate_skin_issues_from_url
  simp only [List.isEmpty_cons, Bool.false_eq_true, if_false]
  split
  · refine ⟨_, rfl, ?_⟩
    rw [issuesOut_some, List.map_map]
    apply List.map_congr_left
    intro iss _
    rfl
  · exact ⟨_, rfl, issuesOut_some g h face (i0 :: rest)⟩

/-- Claim C7: for at least 3 anchor points, the dark-circle drawing equals
the crescent construction as the spec words it (sort left-to-right by x,
shift up by h / 40, fit, offset down by h / 20, fit, concatenate upper
forward with lower reversed, re-smooth the closed loop, and fall back to the
raw shifted and offset polygon when fitting fails), the sort really orders
the points by x, is a permutation of the input, and the construction is
total: it always returns a drawable op, never an error. -/
theorem c7_crescent_matches_spec (g : GeomOracles) (h : Int) (c : Color)
    (points : List IPoint) (hlen : 3 ≤ (sortByX points).length) :
    darkCircleOp g h c points = spec_crescent g h c points
    ∧ (sortByX points).Sorted leX
    ∧ (sortByX points).Perm points := by
  refine ⟨?_, List.sorted_insertionSort leX points, List.perm_insertionSort leX points⟩
  unfold darkCircleOp spec_crescent crescentLoop
  rw [if_pos hlen]

/-- Claim C7 witness: three concrete unsorted points with failing fit
oracles exercise the raw-polygon fallback of the construction. -/
theorem c7_witness :
    3 ≤ (sortByX cresPts).length
    ∧ (darkCircleOp gNone 240 (0, 165, 255) cresPts
        = spec_crescent gNone 240 (0, 165, 255) cresPts
       ∧ (sortByX cresPts).Sorted leX
       ∧ (sortByX cresPts).Perm cresPts) :=
  ⟨by decide, c7_crescent_matches_spec gNone 240 (0, 165, 255) cresPts (by decide)⟩

/-- Two concrete anchor points, below the 3-point spline threshold. -/
def twoPts : List IPoint := [(0, 0), (5, 5)]

/-- Three concrete anchor points on the diagonal. -/
def threePts : List IPoint := [(0, 0), (1, 1), (2, 2)]

/-- Claim C8 counterexample: a closed-contour smoothing of two anchor points
returns the two input points unchanged, not the configured resample count of
100 points. -/
theorem c8_counterexample :
    (get_smooth_curve gNone 100 twoPts).length = 2
    ∧ ((get_smooth_curve gNone 100 twoPts).length == 100) = false :=
  ⟨rfl, rfl⟩

/-- Claim C8 amended: the smoothed closed contour has exactly the configured
resample count of points when the input has at least 3 anchor points and the
periodic fit succeeds; with fewer than 3 points, or when the fit fails, the
input points are returned unchanged. -/
theorem c8_resample_count_on_successful_fit (g : GeomOracles) (n : Nat)
    (points : List IPoint) (hlen : 3 ≤ points.length) :
    (∀ s, g.fitClosed (points ++ points.take 1) = some s →
        (get_smooth_curve g n points).length = n)
    ∧ (g.fitClosed (points ++ points.take 1) = none →
        get_smooth_curve g n points = points) := by
  have hnot : ¬ points.length < 3 := by omega
  obtain ⟨p, rest, rfl⟩ : ∃ p rest, points = p :: rest := by
    cases points with
    | nil => simp at hlen
    | cons p rest => exact ⟨p, rest, rfl⟩
  constructor
  · intro s hs
    unfold get_smooth_curve
    rw [if_neg hnot, hs]
    simp [sampleCurve]
  · intro hs
    unfold get_smooth_curve
    rw [if_neg hnot, hs]
    exact dropLast_app_one (p :: rest) p

/-- Claim C8 witness: three diagonal points with a succeeding fit oracle
resample to 100 points, and the same points with a failing oracle come back
unchanged. -/
theorem c8_witness :
    3 ≤ threePts.length
    ∧ ((∀ s, gSome.fitClosed (threePts ++ threePts.take 1) = some s →
          (get_smooth_curve gSome 100 threePts).length = 100)
       ∧ (gSome.fitClosed (threePts ++ threePts.take 1) = none →
          get_smooth_curve gSome 100 threePts = threePts)) :=
  ⟨by decide, c8_resample_count_on_successful_fit gSome 100 threePts (by decide)⟩

/-- Claim C9: every drawing call of both annotate implementations, shapes
and legend alike, is applied to the working copy of the source image; the
caller's source pixel buffer is unchanged when the call returns. -/
theorem c9_source_buffer_unchanged (g : GeomOracles) (h : Int)
    (faceDet : Option (Nat → IPoint)) (issues : List SkinIssue)
    (renderOp : DrawOp → Image → Image)
    (renderLegend : List LegendEntry → Image → Image) (img : Image) :
    (annotateBuffers (mainRenderFns g h faceDet issues renderOp renderLegend) img).src = img
    ∧ (annotateBuffers (v2RenderFns issues renderOp renderLegend) img).src = img :=
  ⟨foldl_work_src _ _, foldl_work_src _ _⟩

/-- Claim C10: an issue whose severity is outside the color table still gets
the white fallback color, is still drawn (its draw op exists and carries
white), and still appears in the legend with white. -/
theorem c10_unknown_severity_white_fallback (g : GeomOracles) (h : Int)
    (face : Nat → IPoint) (iss : SkinIssue) (rest : List SkinIssue)
    (hsev : severity_colors.lookup (lowerStr iss.severity) = none) :
    severityColor iss.severity = (255, 255, 255)
    ∧ ((processIssue g h face iss).1.bind opColor) = some (255, 255, 255)
    ∧ (annotate_image_with_issues g h (some face) (iss :: rest)).legend.head?
        = some { number := 1, label := issueLabel iss.type, severity := iss.severity,
                 color := (255, 255, 255) } := by
  have hw : severityColor iss.severity = (255, 255, 255) := by
    simp [severityColor, hsev]
  refine ⟨hw, ?_, ?_⟩
  · rw [processIssue_opColor, hw]
  · rw [legend_main_annotate]
    simp [enumFrom, mkLegendEntry, hw]

/-- An issue with a severity string outside the color table. -/
def weirdIssue : SkinIssue :=
  { type := "redness", region := "nose", severity := "extreme", landmarks := [] }

/-- Claim C10 witness: the concrete severity "extreme" misses the table and
falls back to white in the draw op and in the legend row. -/
theorem c10_witness :
    severity_colors.lookup (lowerStr weirdIssue.severity) = none
    ∧ (severityColor weirdIssue.severity = (255, 255, 255)
       ∧ ((processIssue gNone 50 faceId weirdIssue).1.bind opColor) = some (255, 255, 255)
       ∧ (annotate_image_with_issues gNone 50 (some faceId) [weirdIssue]).legend.head?
           = some { number := 1, label := issueLabel weirdIssue.type,
                    severity := weirdIssue.severity, color := (255, 255, 255) }) :=
  ⟨by decide,
   c10_unknown_severity_white_fallback gNone 50 faceId weirdIssue [] (by decide)⟩
